import Mathlib

/-!
Shallow embedding of the authentication / authorization / user / like
slice of the `blog_be` NestJS backend, and theorems settling the spec
claims about it.

Machine-checked model conventions:
* JWTs are modelled symbolically: a signed token is a record of its
  payload, the secret it was signed with, its issue time and lifetime;
  verification against a secret succeeds exactly when the secrets match
  and the token is unexpired (signature forgery is impossible by
  construction in the symbolic model).
* Thrown JS exceptions become an explicit `ThrownError` sum;
  `try/catch` becomes a match on `Except`.
* The TypeORM repository is a `List` of entity records; `save` appends
  or conses, `remove` erases the found entity, `update` maps over rows.
* JS `undefined` on an optional value is `Option.none`.
-/

namespace BlogBE

/-- Modelled from the spec: `src/common/enums/user-role.enum.ts` is not under
`src/`; the spec's data model gives role (admin|user), and the source uses
exactly the members `UserRole.admin` and `UserRole.user`. -/
inductive UserRole where
  | admin
  | user
deriving DecidableEq, Repr

/-- JWT payload claims as signed by `AuthService.getTokens`
(`{ sub: userId, email, role }`). -/
structure JwtClaims where
  sub : String
  email : String
  role : UserRole
deriving DecidableEq, Repr

/-- A signed JWT in the symbolic model: payload plus the secret it was
signed with, its issue time and its lifetime. -/
structure Token where
  payload : JwtClaims
  secret : String
  iat : Nat
  expiresIn : Nat
deriving DecidableEq, Repr

/-- Options passed to `jwtService.signAsync` (`{ secret, expiresIn }`). -/
structure SignOptions where
  secret : String
  expiresIn : Nat
deriving DecidableEq, Repr

/-- `jwtService.signAsync(payload, { secret, expiresIn })` at time `now`. -/
def JwtService.signAsync (payload : JwtClaims) (opts : SignOptions) (now : Nat) : Token :=
  { payload := payload, secret := opts.secret, iat := now, expiresIn := opts.expiresIn }

/-- `jwtService.verifyAsync(token, { secret })` at time `now`: succeeds with
the payload exactly when the token was signed with `secret` and is not
expired; otherwise the library throws, modelled as `none`. -/
def JwtService.verifyAsync (t : Token) (secret : String) (now : Nat) : Option JwtClaims :=
  if t.secret = secret ∧ now < t.iat + t.expiresIn then some t.payload else none

/-- The environment configuration read through `ConfigService`:
`JWT_SECRET`, `JWT_REFRESH_SECRET`, `JWT_ACCESS_EXPIRATION_TIME`,
`JWT_REFRESH_EXPIRATION_TIME`. -/
structure Config where
  jwtSecret : String
  jwtRefreshSecret : String
  accessExpiration : Nat
  refreshExpiration : Nat
deriving DecidableEq, Repr

/-- The exceptions thrown by the embedded slice: a plain JS `Error`, and
the Nest `HttpException` subclasses the source uses. -/
inductive ThrownError where
  | error (msg : String)
  | unauthorizedException (msg : String)
  | notFoundException (msg : String)
  | conflictException (msg : String)
deriving DecidableEq, Repr

/-- `RoleGuard.canActivate` (src/src/modules/auth/guards/role.guard.ts):
public bypass; `!requiredRoles` (the reflector yields `undefined` when no
`@Roles` metadata is declared) allows; missing request user denies; admin
passes; otherwise membership via `requiredRoles.some(...)`. An empty
declared array is truthy in JS, so it does not take the allow branch. -/
def RoleGuard.canActivate (isPublic : Bool) (requiredRoles : Option (List UserRole))
    (user : Option JwtClaims) : Bool :=
  if isPublic then
    true
  else
    match requiredRoles with
    | none => true
    | some roles =>
      match user with
      | none => false
      | some u =>
        if u.role = UserRole.admin then true
        else roles.any (fun role => u.role == role)

/-- The `User` entity (current snapshot, with `class-transformer` marks):
uuid id, nullable name columns, unique email, password column decorated
`@Exclude()`, role defaulting to `user`, timestamps, and a soft-delete
column decorated `@Exclude()`. -/
structure User where
  id : String
  firstName : Option String
  lastName : Option String
  email : String
  password : String
  role : UserRole
  createdAt : Nat
  updatedAt : Nat
  deletedAt : Option Nat
deriving DecidableEq, Repr

/-- Modelled from the spec: `src/modules/hashing/hashing.service.ts` is not
under `src/`; the spec says passwords are stored as salted hashes. The
symbolic hash tags the plaintext (collision-free by construction). -/
def HashingService.hash (plain : String) : String :=
  "$2b$10$" ++ plain

/-- Modelled from the spec: the hashing service's comparison primitive —
`compare(plain, hashed)` holds exactly when `hashed` is the stored hash of
`plain`. -/
def HashingService.compare (plain hashed : String) : Bool :=
  HashingService.hash plain == hashed

/-- `CreateUserDto` (register body): required `firstName`, optional
`lastName`, required `email`, required password (6..20 chars by
`class-validator`). -/
structure CreateUserDto where
  firstName : String
  lastName : Option String
  email : String
  password : String
deriving DecidableEq, Repr

/-- `UpdateUserDto = PartialType(CreateUserDto)` plus optional `role`:
every field optional; an absent field is `none` (JS `undefined`). -/
structure UpdateUserDto where
  firstName : Option String := none
  lastName : Option String := none
  email : Option String := none
  password : Option String := none
  role : Option UserRole := none
deriving DecidableEq, Repr

/-- The `class-validator` constraint on `UpdateUserDto.password` enforced by
the global `ValidationPipe`: when present it satisfies `@MinLength(6)`
(and `@MaxLength(20)`; only the lower bound matters below). -/
def UpdateUserDto.passwordValidated (dto : UpdateUserDto) : Prop :=
  ∀ p, dto.password = some p → 6 ≤ p.length ∧ p.length ≤ 20

/-- `UsersService.findByEmail`: `userRepository.findOne({ where: { email } })`. -/
def UsersService.findByEmail (users : List User) (email : String) : Option User :=
  users.find? (fun u => u.email == email)

/-- `UsersService.findOne`: `userRepository.findOne({ where: { id } })`. -/
def UsersService.findOne (users : List User) (id : String) : Option User :=
  users.find? (fun u => u.id == id)

/-- `UsersService.create`: rejects a duplicate email with a plain JS
`Error('User already exists')`, otherwise hashes the password and saves a
new user (uuid modelled as the supplied fresh id; role takes the column
default `user`). Returns the updated store together with the saved row. -/
def UsersService.create (users : List User) (freshId : String) (now : Nat)
    (dto : CreateUserDto) : Except ThrownError (List User × User) :=
  match UsersService.findByEmail users dto.email with
  | some _ => .error (.error "User already exists")
  | none =>
    let u : User :=
      { id := freshId, firstName := some dto.firstName, lastName := dto.lastName,
        email := dto.email, password := HashingService.hash dto.password,
        role := UserRole.user, createdAt := now, updatedAt := now, deletedAt := none }
    .ok (users ++ [u], u)

/-- `userRepository.update(id, dto)` applied to one row: each field present
in the partial DTO overwrites the column, absent (`undefined`) fields are
ignored by TypeORM. -/
def applyUpdate (dto : UpdateUserDto) (v : User) : User :=
  { v with
    firstName := match dto.firstName with | some f => some f | none => v.firstName
    lastName := match dto.lastName with | some l => some l | none => v.lastName
    email := match dto.email with | some e => e | none => v.email
    password := match dto.password with | some p => p | none => v.password
    role := match dto.role with | some r => r | none => v.role }

/-- The password-stripping step of `UsersService.update`:
`if (updateUserDto.password) delete updateUserDto.password` — JS
truthiness, so the empty string is falsy and would survive the check. -/
def stripPassword (dto : UpdateUserDto) : UpdateUserDto :=
  if (match dto.password with | some p => p != "" | none => false)
    then { dto with password := none } else dto

/-- `UsersService.update`: looks the user up (plain `Error` when absent),
strips the DTO's password when truthy, applies
`userRepository.update(id, dto)` and re-fetches the row. -/
def UsersService.update (users : List User) (id : String) (dto : UpdateUserDto) :
    Except ThrownError (List User × Option User) :=
  match UsersService.findOne users id with
  | none => .error (.error "User not found")
  | some _ =>
    let users' := users.map (fun v => if v.id = id then applyUpdate (stripPassword dto) v else v)
    .ok (users', UsersService.findOne users' id)

/-- `UsersService.updatePassword`: `userRepository.update(id, { password })`. -/
def UsersService.updatePassword (users : List User) (id : String)
    (hashedPassword : String) : List User :=
  users.map (fun v => if v.id = id then { v with password := hashedPassword } else v)

/-- `AuthService.validateUser` (the live version in role.guard.ts): `null`
for an unknown email, `null` when the hash comparison fails, the user row
otherwise. -/
def AuthService.validateUser (users : List User) (email password : String) : Option User :=
  match UsersService.findByEmail users email with
  | none => none
  | some u => if HashingService.compare password u.password then some u else none

/-- `AuthService.getTokens`: signs the same `{ sub, email, role }` payload
twice, the access token with `JWT_SECRET`/`JWT_ACCESS_EXPIRATION_TIME`,
the refresh token with `JWT_REFRESH_SECRET`/`JWT_REFRESH_EXPIRATION_TIME`. -/
def AuthService.getTokens (cfg : Config) (userId email : String) (role : UserRole)
    (now : Nat) : Token × Token :=
  (JwtService.signAsync { sub := userId, email := email, role := role }
      { secret := cfg.jwtSecret, expiresIn := cfg.accessExpiration } now,
   JwtService.signAsync { sub := userId, email := email, role := role }
      { secret := cfg.jwtRefreshSecret, expiresIn := cfg.refreshExpiration } now)

/-- `AuthService.login(user)`: delegates to `getTokens(user.id, user.email,
user.role)`. -/
def AuthService.login (cfg : Config) (u : User) (now : Nat) : Token × Token :=
  AuthService.getTokens cfg u.id u.email u.role now

/-- The object literal `{ access_token }` returned by
`AuthService.refreshTokens` — it carries no `refresh_token` field. -/
structure RefreshOk where
  access_token : Token
deriving DecidableEq, Repr

/-- The `try` block of `AuthService.refreshTokens`: verify against the
refresh secret (the JWT library throws on failure), look the subject up
(`NotFoundException` when absent), and sign a fresh access token from the
looked-up user record. -/
def AuthService.refreshTokensTry (cfg : Config) (users : List User) (rt : Token)
    (now : Nat) : Except ThrownError RefreshOk :=
  match JwtService.verifyAsync rt cfg.jwtRefreshSecret now with
  | none => .error (.error "jwt verification failed")
  | some payload =>
    match UsersService.findOne users payload.sub with
    | none => .error (.notFoundException "User not found")
    | some user =>
      let tok := JwtService.signAsync
        { sub := user.id, email := user.email, role := user.role }
        { secret := cfg.jwtSecret, expiresIn := cfg.accessExpiration } now
      .ok { access_token := tok }

/-- `AuthService.refreshTokens`: the `catch (e)` turns every failure of the
`try` block into `UnauthorizedException('Invalid refresh token')`. -/
def AuthService.refreshTokens (cfg : Config) (users : List User) (rt : Token)
    (now : Nat) : Except ThrownError RefreshOk :=
  match AuthService.refreshTokensTry cfg users rt now with
  | .ok r => .ok r
  | .error _ => .error (.unauthorizedException "Invalid refresh token")

/-- The observable outcome of `POST /auth/refresh`: the body `{ access_token }`
and the value the controller writes into the `refresh_token` cookie
(`none` models JS `undefined`). -/
structure RefreshResponse where
  body_access_token : Token
  cookie_refresh_token : Option Token
deriving DecidableEq, Repr

/-- `AuthController.refresh`: reads the `refresh_token` cookie (plain
`Error` when missing), calls `AuthService.refreshTokens`, then destructures
`{ access_token, refresh_token: newRefreshToken }` from a result that has
no `refresh_token` field — so `newRefreshToken` is `undefined` — and sets
the `refresh_token` cookie to that value. -/
def AuthController.refresh (cfg : Config) (users : List User)
    (cookieRefreshToken : Option Token) (now : Nat) :
    Except ThrownError RefreshResponse :=
  match cookieRefreshToken with
  | none => .error (.error "Refresh token not found")
  | some rt =>
    match AuthService.refreshTokens cfg users rt now with
    | .error e => .error e
    | .ok r => .ok { body_access_token := r.access_token, cookie_refresh_token := none }

/-- The outcome of `POST /auth/login`: access token in the body, refresh
token written into the HttpOnly `refresh_token` cookie. -/
structure LoginResponse where
  body_access_token : Token
  cookie_refresh_token : Token
deriving DecidableEq, Repr

/-- Modelled from the spec: the `LocalAuthGuard` / passport local strategy
(`src/modules/auth/strategies/local.strategy.ts`, not under `src/`) runs
`AuthService.validateUser` on the login body and rejects the request with
an authorization failure (Unauthorized) when it yields no user; on success
`AuthController.login` issues the token pair and sets the cookie. -/
def AuthController.loginEndpoint (cfg : Config) (users : List User)
    (email password : String) (now : Nat) : Except ThrownError LoginResponse :=
  match AuthService.validateUser users email password with
  | none => .error (.unauthorizedException "Unauthorized")
  | some u =>
    let pair := AuthService.login cfg u now
    .ok { body_access_token := pair.1, cookie_refresh_token := pair.2 }

/-- JSON values appearing in serialized entity fields. -/
inductive JsonVal where
  | str (s : String)
  | num (n : Nat)
  | nullVal
deriving DecidableEq, Repr

/-- A nullable column as a JSON value. -/
def optStr : Option String → JsonVal
  | some s => JsonVal.str s
  | none => JsonVal.nullVal

/-- A nullable date column as a JSON value. -/
def optNum : Option Nat → JsonVal
  | some n => JsonVal.num n
  | none => JsonVal.nullVal

/-- The column name of a `UserRole` value as serialized. -/
def UserRole.asString : UserRole → String
  | UserRole.admin => "admin"
  | UserRole.user => "user"

/-- Every column of the `User` entity as a key/value pair, in declaration
order, before serialization marks are applied. -/
def User.plainFields (u : User) : List (String × JsonVal) :=
  [("id", JsonVal.str u.id),
   ("firstName", optStr u.firstName),
   ("lastName", optStr u.lastName),
   ("email", JsonVal.str u.email),
   ("password", JsonVal.str u.password),
   ("role", JsonVal.str u.role.asString),
   ("createdAt", JsonVal.num u.createdAt),
   ("updatedAt", JsonVal.num u.updatedAt),
   ("deletedAt", optNum u.deletedAt)]

/-- The `User` columns decorated `@Exclude()` in the entity: `password`
and `deletedAt`. -/
def User.excludedFields : List String :=
  ["password", "deletedAt"]

/-- The global `ClassSerializerInterceptor` registered in `bootstrap`
(`main.ts`) applied to a `User` instance: `class-transformer` drops every
`@Exclude()`-decorated column from the plain output. -/
def classSerializeUser (u : User) : List (String × JsonVal) :=
  (User.plainFields u).filter (fun kv => !User.excludedFields.contains kv.1)

/-- `POST /auth/register` as seen by the client: `AuthController.register`
delegates to `UsersService.create`, and the returned `User` instance
passes through the global `ClassSerializerInterceptor`. -/
def AuthController.registerSerialized (users : List User) (freshId : String)
    (now : Nat) (dto : CreateUserDto) : Except ThrownError (List (String × JsonVal)) :=
  match UsersService.create users freshId now dto with
  | .error e => .error e
  | .ok (_, u) => .ok (classSerializeUser u)

/-- A row of the `Like` entity: generated id (modelled as a counter),
`blogId`, `userId`, creation time. -/
structure LikeRow where
  id : Nat
  blogId : String
  userId : String
  createdAt : Nat
deriving DecidableEq, Repr

/-- The like repository: its rows plus the id generator state. -/
structure LikesState where
  rows : List LikeRow
  nextId : Nat
deriving DecidableEq, Repr

/-- The result object of `LikesService.toggle`. -/
structure ToggleResult where
  liked : Bool
  message : String
deriving DecidableEq, Repr

/-- `likeRepository.findOne({ where: { blogId, userId: user.sub } })`. -/
def LikesService.findLike (rows : List LikeRow) (blogId userId : String) :
    Option LikeRow :=
  rows.find? (fun l => l.blogId == blogId && l.userId == userId)

/-- `LikesService.toggle`: remove the existing like row and report
`liked: false`, or create and save one and report `liked: true`. -/
def LikesService.toggle (st : LikesState) (blogId userId : String) (now : Nat) :
    LikesState × ToggleResult :=
  match LikesService.findLike st.rows blogId userId with
  | some l =>
    ({ st with rows := st.rows.erase l },
     { liked := false, message := "Like removed" })
  | none =>
    let l : LikeRow := { id := st.nextId, blogId := blogId, userId := userId,
                         createdAt := now }
    ({ rows := l :: st.rows, nextId := st.nextId + 1 },
     { liked := true, message := "Blog liked" })

/-- The number of like rows for a given (blogId, userId) pair. -/
def countPair (rows : List LikeRow) (blogId userId : String) : Nat :=
  rows.countP (fun l => l.blogId == blogId && l.userId == userId)

/-- The uniqueness invariant declared on the entity
(`@Unique(['blogId', 'userId'])`): at most one like row per pair. -/
def atMostOnePerPair (rows : List LikeRow) : Prop :=
  ∀ blogId userId, countPair rows blogId userId ≤ 1

/-- Concrete environment configuration used by witnesses. -/
def sampleCfg : Config :=
  { jwtSecret := "access-secret", jwtRefreshSecret := "refresh-secret",
    accessExpiration := 15, refreshExpiration := 100 }

/-- A concrete registered user used by witnesses. -/
def sampleUser : User :=
  { id := "u1", firstName := some "Ada", lastName := none, email := "a@b.c",
    password := HashingService.hash "secret1", role := UserRole.user,
    createdAt := 0, updatedAt := 0, deletedAt := none }

/-- A refresh token issued for `sampleUser`'s original claims, signed with
the refresh secret at time 0. -/
def sampleRefreshToken : Token :=
  { payload := { sub := "u1", email := "a@b.c", role := UserRole.user },
    secret := "refresh-secret", iat := 0, expiresIn := 100 }

/-- `sampleUser` after an email change in the store, while
`sampleRefreshToken` still carries the original email claim. -/
def changedUser : User :=
  { sampleUser with email := "new@b.c" }

/-- A registration body reusing `sampleUser`'s email. -/
def dupDto : CreateUserDto :=
  { firstName := "Bob", lastName := none, email := "a@b.c", password := "hunter22" }

/-- A fresh registration body. -/
def regDto : CreateUserDto :=
  { firstName := "Cid", lastName := none, email := "c@d.e", password := "hunter22" }

/-- The row `UsersService.create` builds from `regDto` with fresh id "u9"
at time 3. -/
def regUser : User :=
  { id := "u9", firstName := some "Cid", lastName := none, email := "c@d.e",
    password := HashingService.hash "hunter22", role := UserRole.user,
    createdAt := 3, updatedAt := 3, deletedAt := none }

/-- A profile-update body that also smuggles a `password` field. -/
def sampleUpdateDto : UpdateUserDto :=
  { firstName := some "Al", password := some "newpass7" }

/-- `sampleUser` after `sampleUpdateDto` is applied with the password
stripped. -/
def updatedSampleUser : User :=
  { sampleUser with firstName := some "Al" }

end BlogBE

namespace BlogBE

/-- C1: the Role Authorizer's decision, rule by rule: no declared role
requirement allows; a present requirement with no verified caller denies;
an admin caller is always allowed; otherwise a caller passes exactly when
their role is a member of the required set. -/
theorem roleGuard_decision (rr : Option (List UserRole)) (u : Option JwtClaims) :
    (rr = none → RoleGuard.canActivate false rr u = true)
    ∧ (∀ rs, rr = some rs → u = none → RoleGuard.canActivate false rr u = false)
    ∧ (∀ c, u = some c → c.role = UserRole.admin → RoleGuard.canActivate false rr u = true)
    ∧ (∀ rs c, rr = some rs → u = some c → c.role ≠ UserRole.admin →
        (RoleGuard.canActivate false rr u = true ↔ c.role ∈ rs)) := by
  refine ⟨?_, ?_, ?_, ?_⟩
  · rintro rfl
    rfl
  · rintro rs rfl rfl
    rfl
  · rintro c rfl hadm
    cases rr with
    | none => rfl
    | some rs => simp [RoleGuard.canActivate, hadm]
  · rintro rs c rfl rfl hadm
    simp [RoleGuard.canActivate, hadm, List.any_eq_true]

/-- Witness for C1 at concrete inputs: an endpoint requiring `admin`
rejects a caller with role `user` (membership rule, rule 4). -/
theorem roleGuard_decision_witness :
    RoleGuard.canActivate false (some [UserRole.admin])
      (some ⟨"u1", "a@b.c", UserRole.user⟩) = false := by
  have h := (roleGuard_decision (some [UserRole.admin])
      (some ⟨"u1", "a@b.c", UserRole.user⟩)).2.2.2
      [UserRole.admin] ⟨"u1", "a@b.c", UserRole.user⟩ rfl rfl (by decide)
  simp only [show (UserRole.user ∈ [UserRole.admin]) = False by simp, iff_false] at h
  cases hc : RoleGuard.canActivate false (some [UserRole.admin])
      (some ⟨"u1", "a@b.c", UserRole.user⟩) with
  | true => exact absurd hc h
  | false => rfl

/-- C2: `login` with a registered user's stored id/email/role produces an
access token and a refresh token whose payloads both carry exactly the
claims (sub = id, email, role); the access token is signed with the access
secret and access expiry, the refresh token with the refresh secret and
refresh expiry, and each decodes back to those claims under its own
secret while unexpired. -/
theorem login_token_claims (cfg : Config) (u : User) (now : Nat) :
    (AuthService.login cfg u now).1.payload = { sub := u.id, email := u.email, role := u.role }
    ∧ (AuthService.login cfg u now).1.secret = cfg.jwtSecret
    ∧ (AuthService.login cfg u now).1.expiresIn = cfg.accessExpiration
    ∧ (AuthService.login cfg u now).2.payload = { sub := u.id, email := u.email, role := u.role }
    ∧ (AuthService.login cfg u now).2.secret = cfg.jwtRefreshSecret
    ∧ (AuthService.login cfg u now).2.expiresIn = cfg.refreshExpiration
    ∧ (0 < cfg.accessExpiration →
        JwtService.verifyAsync (AuthService.login cfg u now).1 cfg.jwtSecret now
          = some { sub := u.id, email := u.email, role := u.role })
    ∧ (0 < cfg.refreshExpiration →
        JwtService.verifyAsync (AuthService.login cfg u now).2 cfg.jwtRefreshSecret now
          = some { sub := u.id, email := u.email, role := u.role }) := by
  refine ⟨rfl, rfl, rfl, rfl, rfl, rfl, ?_, ?_⟩
  · intro h
    have h' : now < now + cfg.accessExpiration := by omega
    simp [AuthService.login, AuthService.getTokens, JwtService.signAsync,
      JwtService.verifyAsync, h']
  · intro h
    have h' : now < now + cfg.refreshExpiration := by omega
    simp [AuthService.login, AuthService.getTokens, JwtService.signAsync,
      JwtService.verifyAsync, h']

/-- Witness for C2: on the concrete configuration the access token issued
to `sampleUser` decodes under the access secret to the stored claims. -/
theorem login_token_claims_witness :
    JwtService.verifyAsync (AuthService.login sampleCfg sampleUser 5).1
        sampleCfg.jwtSecret 5
      = some { sub := sampleUser.id, email := sampleUser.email, role := sampleUser.role } :=
  (login_token_claims sampleCfg sampleUser 5).2.2.2.2.2.2.1 (by decide)

/-- C3: a refresh token that fails verification against the refresh secret
(expired, tampered or signed with the wrong secret) makes `refreshTokens`
throw `UnauthorizedException('Invalid refresh token')`; the `Except.error`
result carries no token. -/
theorem refreshTokens_rejects_invalid (cfg : Config) (users : List User)
    (rt : Token) (now : Nat)
    (h : JwtService.verifyAsync rt cfg.jwtRefreshSecret now = none) :
    AuthService.refreshTokens cfg users rt now
      = .error (.unauthorizedException "Invalid refresh token") := by
  unfold AuthService.refreshTokens AuthService.refreshTokensTry
  rw [h]

/-- Witness for C3: the same refresh token presented after its expiry is
rejected with Unauthorized. -/
theorem refreshTokens_rejects_invalid_witness :
    AuthService.refreshTokens sampleCfg [sampleUser] sampleRefreshToken 1000
      = .error (.unauthorizedException "Invalid refresh token") :=
  refreshTokens_rejects_invalid sampleCfg [sampleUser] sampleRefreshToken 1000 (by decide)

/-- Counterexample to C4 as stated: the refresh token still verifies and
its subject exists, but the user's stored email has changed since
issuance; the re-issued access token carries the current record's claims,
which are not identical to the original token's claims. -/
theorem refreshTokens_claims_from_db_cex :
    JwtService.verifyAsync sampleRefreshToken sampleCfg.jwtRefreshSecret 1
        = some sampleRefreshToken.payload
    ∧ UsersService.findOne [changedUser] sampleRefreshToken.payload.sub = some changedUser
    ∧ AuthService.refreshTokens sampleCfg [changedUser] sampleRefreshToken 1
        = .ok { access_token :=
            { payload := { sub := "u1", email := "new@b.c", role := UserRole.user },
              secret := "access-secret", iat := 1, expiresIn := 15 } }
    ∧ ({ sub := "u1", email := "new@b.c", role := UserRole.user } : JwtClaims)
        ≠ sampleRefreshToken.payload := by
  refine ⟨by decide, by decide, by rfl, by decide⟩

/-- C4 (amended): for a refresh token that verifies against the refresh
secret and whose subject identifies an existing user, `refreshTokens`
re-issues only a new access token (the result has no refresh-token field),
signed with the access secret and a fresh expiry, whose claims are those
of the current stored user record — which coincide with the original
token's claims whenever the record still carries them. -/
theorem refreshTokens_valid_issues_access (cfg : Config) (users : List User)
    (rt : Token) (now : Nat) (u : User)
    (hsec : rt.secret = cfg.jwtRefreshSecret)
    (hexp : now < rt.iat + rt.expiresIn)
    (hu : UsersService.findOne users rt.payload.sub = some u) :
    AuthService.refreshTokens cfg users rt now
      = .ok { access_token :=
          { payload := { sub := u.id, email := u.email, role := u.role },
            secret := cfg.jwtSecret, iat := now, expiresIn := cfg.accessExpiration } } := by
  unfold AuthService.refreshTokens AuthService.refreshTokensTry
  simp [JwtService.verifyAsync, hsec, hexp, hu, JwtService.signAsync]

/-- Witness for C4's amended theorem: refreshing with `sampleRefreshToken`
while `sampleUser` is unchanged yields exactly one fresh access token with
the stored (= original) claims. -/
theorem refreshTokens_valid_issues_access_witness :
    AuthService.refreshTokens sampleCfg [sampleUser] sampleRefreshToken 1
      = .ok { access_token :=
          { payload := { sub := sampleUser.id, email := sampleUser.email,
                         role := sampleUser.role },
            secret := sampleCfg.jwtSecret, iat := 1,
            expiresIn := sampleCfg.accessExpiration } } :=
  refreshTokens_valid_issues_access sampleCfg [sampleUser] sampleRefreshToken 1
    sampleUser rfl (by decide) (by decide)

/-- C5 (code evaluated at the failing input): `POST /auth/refresh` with a
valid refresh-token cookie does return a new access token in the body, but
the `refresh_token` cookie is written with `undefined` — the controller
destructures a `refresh_token` field that `AuthService.refreshTokens`
never returns — so the cookie is not set to a freshly issued refresh
token. -/
theorem refresh_endpoint_cookie_not_rotated :
    AuthController.refresh sampleCfg [sampleUser] (some sampleRefreshToken) 1
      = .ok { body_access_token :=
                { payload := { sub := "u1", email := "a@b.c", role := UserRole.user },
                  secret := "access-secret", iat := 1, expiresIn := 15 },
              cookie_refresh_token := none } := by
  rfl

/-- C6 (code evaluated at the failing input): registering a second user
with an already-registered email is rejected — no second user is created,
the result is an error — but with a plain JS `Error('User already
exists')`, not a `ConflictException`, so no structured Conflict status
reaches the caller. -/
theorem create_duplicate_email_plain_error :
    UsersService.findByEmail [sampleUser] dupDto.email = some sampleUser
    ∧ UsersService.create [sampleUser] "u2" 5 dupDto
        = .error (.error "User already exists") := by
  refine ⟨by decide, by rfl⟩

/-- C7: when the email is unknown, or the supplied password does not match
the stored hash, credential validation fails closed: the login endpoint
answers Unauthorized and no access or refresh token is issued. -/
theorem login_rejects_bad_credentials (cfg : Config) (users : List User)
    (email password : String) (now : Nat)
    (h : UsersService.findByEmail users email = none
      ∨ ∃ u, UsersService.findByEmail users email = some u
          ∧ HashingService.compare password u.password = false) :
    AuthController.loginEndpoint cfg users email password now
      = .error (.unauthorizedException "Unauthorized") := by
  have hv : AuthService.validateUser users email password = none := by
    unfold AuthService.validateUser
    rcases h with h | ⟨u, hu, hc⟩
    · rw [h]
    · rw [hu]
      simp [hc]
  unfold AuthController.loginEndpoint
  rw [hv]

/-- Witness for C7: a wrong password for `sampleUser`'s email yields
Unauthorized. -/
theorem login_rejects_bad_credentials_witness :
    AuthController.loginEndpoint sampleCfg [sampleUser] "a@b.c" "wrongpass" 5
      = .error (.unauthorizedException "Unauthorized") :=
  login_rejects_bad_credentials sampleCfg [sampleUser] "a@b.c" "wrongpass" 5
    (Or.inr ⟨sampleUser, by decide, by decide⟩)

/-- Every serialized `User` omits the `password` key: the `@Exclude()`
mark on the password column is applied by the global serializer. -/
theorem lookup_password_classSerializeUser (u : User) :
    (classSerializeUser u).lookup "password" = none := by
  rfl

/-- C8: the password (hash) field is never included in a serialized user:
for every `User` record, the output of the global
`ClassSerializerInterceptor` has no `password` key, and in particular
every successful `POST /auth/register` response body omits it. -/
theorem password_never_serialized (u : User) :
    (classSerializeUser u).lookup "password" = none
    ∧ (∀ users freshId now dto body,
        AuthController.registerSerialized users freshId now dto = .ok body →
        body.lookup "password" = none) := by
  refine ⟨lookup_password_classSerializeUser u, ?_⟩
  intro users freshId now dto body hbody
  unfold AuthController.registerSerialized at hbody
  cases hc : UsersService.create users freshId now dto with
  | error e => rw [hc] at hbody; cases hbody
  | ok p =>
    rw [hc] at hbody
    cases hbody
    exact lookup_password_classSerializeUser p.2

/-- Witness for C8: the serialized `sampleUser` has no `password` key, and
the concrete register response for `regDto` has none either. -/
theorem password_never_serialized_witness :
    (classSerializeUser sampleUser).lookup "password" = none
    ∧ (classSerializeUser regUser).lookup "password" = none :=
  ⟨(password_never_serialized sampleUser).1,
   (password_never_serialized sampleUser).2 [] "u9" 3 regDto
     (classSerializeUser regUser) (by rfl)⟩

/-- A pair predicate is false on a row of a different pair. -/
theorem pairPred_false (b u b' u' : String) (hne : ¬(b' = b ∧ u' = u)) :
    ((b == b') && (u == u')) = false := by
  by_cases h1 : b = b'
  · by_cases h2 : u = u'
    · exact absurd ⟨h1.symm, h2.symm⟩ hne
    · simp [h2]
  · simp [h1]

/-- When `findOne` misses, the pair has no rows. -/
theorem findLike_none_countPair (rows : List LikeRow) (b u : String)
    (h : LikesService.findLike rows b u = none) : countPair rows b u = 0 := by
  unfold LikesService.findLike at h
  exact List.countP_eq_zero.mpr (List.find?_eq_none.mp h)

/-- When the pair has no rows, `findOne` misses. -/
theorem countPair_zero_findLike_none (rows : List LikeRow) (b u : String)
    (h : countPair rows b u = 0) : LikesService.findLike rows b u = none := by
  unfold LikesService.findLike
  exact List.find?_eq_none.mpr (List.countP_eq_zero.mp h)

/-- The row found by `findOne` is a stored row of the requested pair. -/
theorem findLike_some_facts (rows : List LikeRow) (b u : String) (l : LikeRow)
    (h : LikesService.findLike rows b u = some l) :
    l ∈ rows ∧ l.blogId = b ∧ l.userId = u := by
  unfold LikesService.findLike at h
  have hp := List.find?_some h
  simp only [Bool.and_eq_true, beq_iff_eq] at hp
  exact ⟨List.mem_of_find?_eq_some h, hp.1, hp.2⟩

/-- Counting through `repository.save` of a new row. -/
theorem countPair_cons (l : LikeRow) (rows : List LikeRow) (b' u' : String) :
    countPair (l :: rows) b' u'
      = countPair rows b' u' + (if (l.blogId == b') && (l.userId == u') then 1 else 0) :=
  List.countP_cons _ _ _

/-- Counting through `repository.remove` of a stored row. -/
theorem countPair_erase (rows : List LikeRow) (l : LikeRow) (hmem : l ∈ rows)
    (b' u' : String) :
    countPair rows b' u'
      = countPair (rows.erase l) b' u'
        + (if (l.blogId == b') && (l.userId == u') then 1 else 0) := by
  unfold countPair
  rw [(List.perm_cons_erase hmem).countP_eq]
  exact List.countP_cons _ _ _

/-- `toggle` when no like row exists: save a fresh row, report liked. -/
theorem toggle_eq_of_none (st : LikesState) (b u : String) (now : Nat)
    (h : LikesService.findLike st.rows b u = none) :
    LikesService.toggle st b u now
      = ({ rows := { id := st.nextId, blogId := b, userId := u, createdAt := now } :: st.rows,
           nextId := st.nextId + 1 },
         { liked := true, message := "Blog liked" }) := by
  simp [LikesService.toggle, h]

/-- `toggle` when a like row exists: remove it, report unliked. -/
theorem toggle_eq_of_some (st : LikesState) (b u : String) (now : Nat) (l : LikeRow)
    (h : LikesService.findLike st.rows b u = some l) :
    LikesService.toggle st b u now
      = ({ st with rows := st.rows.erase l },
         { liked := false, message := "Like removed" }) := by
  simp [LikesService.toggle, h]

/-- C9: `LikesService.toggle` is an involution on like state. Under the
entity's `@Unique(['blogId','userId'])` invariant: with no row for the
pair it creates exactly one and reports `liked = true`; with a row it
removes it and reports `liked = false`; rows of every other pair are
untouched; two successive toggles restore the per-pair row counts, hence
the like state; and the at-most-one-row-per-pair invariant is preserved. -/
theorem likes_toggle_involution (st : LikesState) (b u : String) (now now2 : Nat)
    (hinv : atMostOnePerPair st.rows) :
    (countPair st.rows b u = 0 →
      (LikesService.toggle st b u now).2.liked = true
      ∧ countPair (LikesService.toggle st b u now).1.rows b u = 1)
    ∧ (countPair st.rows b u ≠ 0 →
      (LikesService.toggle st b u now).2.liked = false
      ∧ countPair (LikesService.toggle st b u now).1.rows b u = 0)
    ∧ (∀ b' u', ¬(b' = b ∧ u' = u) →
        countPair (LikesService.toggle st b u now).1.rows b' u'
          = countPair st.rows b' u')
    ∧ (∀ b' u',
        countPair
            (LikesService.toggle (LikesService.toggle st b u now).1 b u now2).1.rows b' u'
          = countPair st.rows b' u')
    ∧ atMostOnePerPair (LikesService.toggle st b u now).1.rows := by
  cases hfind : LikesService.findLike st.rows b u with
  | none =>
    have h0 : countPair st.rows b u = 0 := findLike_none_countPair _ _ _ hfind
    rw [toggle_eq_of_none st b u now hfind]
    have hpredself :
        ((({ id := st.nextId, blogId := b, userId := u, createdAt := now } : LikeRow).blogId == b)
          && (({ id := st.nextId, blogId := b, userId := u, createdAt := now } : LikeRow).userId == u)) = true := by
      simp
    refine ⟨?_, ?_, ?_, ?_, ?_⟩
    · intro _
      refine ⟨rfl, ?_⟩
      simp only [countPair, List.countP_cons] at h0 ⊢
      rw [h0]
      simp
    · intro hne
      exact absurd h0 hne
    · intro b' u' hne
      simp only [countPair, List.countP_cons]
      have : ((({ id := st.nextId, blogId := b, userId := u, createdAt := now } : LikeRow).blogId == b')
          && (({ id := st.nextId, blogId := b, userId := u, createdAt := now } : LikeRow).userId == u')) = false := by
        simpa using pairPred_false b u b' u' hne
      rw [this]
      simp [countPair]
    · intro b' u'
      have hfind2 : LikesService.findLike
          ({ id := st.nextId, blogId := b, userId := u, createdAt := now } :: st.rows) b u
          = some { id := st.nextId, blogId := b, userId := u, createdAt := now } := by
        unfold LikesService.findLike
        exact List.find?_cons_of_pos _ hpredself
      rw [toggle_eq_of_some _ b u now2 _ hfind2]
      simp only [List.erase_cons_head]
    · intro b' u'
      by_cases hcase : b' = b ∧ u' = u
      · have hpt : ((({ id := st.nextId, blogId := b, userId := u, createdAt := now } : LikeRow).blogId == b')
            && (({ id := st.nextId, blogId := b, userId := u, createdAt := now } : LikeRow).userId == u')) = true := by
          simp [hcase.1, hcase.2]
        have h0' : countPair st.rows b' u' = 0 := by
          rw [hcase.1, hcase.2]
          exact h0
        rw [countPair_cons, hpt, h0']
        simp
      · simp only [countPair, List.countP_cons]
        have : ((({ id := st.nextId, blogId := b, userId := u, createdAt := now } : LikeRow).blogId == b')
            && (({ id := st.nextId, blogId := b, userId := u, createdAt := now } : LikeRow).userId == u')) = false := by
          simpa using pairPred_false b u b' u' hcase
        rw [this]
        simpa [countPair] using hinv b' u'
  | some l =>
    obtain ⟨hmem, hbl, hul⟩ := findLike_some_facts _ _ _ _ hfind
    have hself : ((l.blogId == b) && (l.userId == u)) = true := by
      simp [hbl, hul]
    have hdecomp := countPair_erase st.rows l hmem b u
    rw [hself] at hdecomp
    have h1 : countPair st.rows b u = countPair (st.rows.erase l) b u + 1 := by
      simpa using hdecomp
    have hle := hinv b u
    have herased0 : countPair (st.rows.erase l) b u = 0 := by omega
    have hcount1 : countPair st.rows b u = 1 := by omega
    rw [toggle_eq_of_some st b u now l hfind]
    have hframe : ∀ b' u', ¬(b' = b ∧ u' = u) →
        countPair (st.rows.erase l) b' u' = countPair st.rows b' u' := by
      intro b' u' hne
      have hd := countPair_erase st.rows l hmem b' u'
      have hpf : ((l.blogId == b') && (l.userId == u')) = false := by
        rw [hbl, hul]
        exact pairPred_false b u b' u' hne
      rw [hpf] at hd
      simpa using hd.symm
    refine ⟨?_, ?_, ?_, ?_, ?_⟩
    · intro h0
      rw [hcount1] at h0
      cases h0
    · intro _
      exact ⟨rfl, herased0⟩
    · intro b' u' hne
      exact hframe b' u' hne
    · intro b' u'
      have hfind2 : LikesService.findLike (st.rows.erase l) b u = none :=
        countPair_zero_findLike_none _ _ _ herased0
      show countPair
          (LikesService.toggle { rows := st.rows.erase l, nextId := st.nextId } b u now2).1.rows
          b' u' = countPair st.rows b' u'
      rw [toggle_eq_of_none { rows := st.rows.erase l, nextId := st.nextId } b u now2 hfind2]
      by_cases hcase : b' = b ∧ u' = u
      · have he0 : countPair (st.rows.erase l) b' u' = 0 := by
          rw [hcase.1, hcase.2]
          exact herased0
        have hc1 : countPair st.rows b' u' = 1 := by
          rw [hcase.1, hcase.2]
          exact hcount1
        rw [countPair_cons, he0, hc1]
        simp [hcase.1, hcase.2]
      · have hfr := hframe b' u' hcase
        have hpf : ((b == b') && (u == u')) = false := pairPred_false b u b' u' hcase
        rw [countPair_cons]
        simp [hpf, hfr]
    · intro b' u'
      have hd := countPair_erase st.rows l hmem b' u'
      have := hinv b' u'
      simp only [countPair] at hd this ⊢
      omega

/-- Witness for C9: toggling a like on an empty store creates exactly one
row and reports `liked = true`. -/
theorem likes_toggle_involution_witness :
    (LikesService.toggle { rows := [], nextId := 0 } "b1" "u1" 7).2.liked = true
    ∧ countPair (LikesService.toggle { rows := [], nextId := 0 } "b1" "u1" 7).1.rows
        "b1" "u1" = 1 :=
  (likes_toggle_involution { rows := [], nextId := 0 } "b1" "u1" 7 7
      (fun _ _ => by simp [countPair])).1 (by simp [countPair])

/-- The validated DTO always loses its password field before the row
update is applied. -/
theorem stripPassword_password_none (dto : UpdateUserDto)
    (hval : dto.passwordValidated) : (stripPassword dto).password = none := by
  unfold stripPassword
  cases hp : dto.password with
  | none =>
    simp [hp]
  | some p =>
    have h6 := (hval p hp).1
    have hne : (p != "") = true := by
      simp only [bne_iff_ne, ne_eq]
      intro he
      rw [he] at h6
      simp at h6
    simp [hp, hne]

/-- C10: for every stored user list, id and validated update DTO,
`UsersService.update` leaves every stored password hash unchanged — the
DTO's password field is stripped before `userRepository.update` — so a
password can change only through `updatePassword`. -/
theorem users_update_preserves_passwords (users : List User) (id : String)
    (dto : UpdateUserDto) (users' : List User) (ret : Option User)
    (hval : dto.passwordValidated)
    (hok : UsersService.update users id dto = .ok (users', ret)) :
    users'.map (fun v => (v.id, v.password)) = users.map (fun v => (v.id, v.password)) := by
  unfold UsersService.update at hok
  cases hfind : UsersService.findOne users id with
  | none =>
    rw [hfind] at hok
    cases hok
  | some w =>
    rw [hfind] at hok
    simp only [Except.ok.injEq, Prod.mk.injEq] at hok
    obtain ⟨husers, -⟩ := hok
    rw [← husers, List.map_map]
    apply List.map_congr_left
    intro v _
    by_cases hid : v.id = id
    · simp [Function.comp, hid, applyUpdate, stripPassword_password_none dto hval]
    · simp [Function.comp, hid]

/-- Witness for C10: updating `sampleUser`'s first name with a DTO that
also carries a password leaves the stored password hash unchanged. -/
theorem users_update_preserves_passwords_witness :
    [updatedSampleUser].map (fun v => (v.id, v.password))
      = [sampleUser].map (fun v => (v.id, v.password)) :=
  users_update_preserves_passwords [sampleUser] "u1" sampleUpdateDto
    [updatedSampleUser] (some updatedSampleUser)
    (fun p hp => by
      have h : "newpass7" = p := by
        have hp' : some "newpass7" = some p := hp
        injection hp'
      rw [← h]
      exact ⟨by decide, by decide⟩)
    (by rfl)

end BlogBE
